import Mathlib

/-! Shallow embedding of the bkdns DNS wire-format codec (src/packet.rs and the
legacy variant in src/main.rs).

Machine integers are modelled as `Nat` with explicit `% 2 ^ w` (or `&&& mask`)
where the source truncates; byte sequences are `List Nat` whose entries stand
for `u8` values; Rust `&str` is modelled as `List Char` (Rust chars are Unicode
scalar values, exactly Lean `Char`); `Result<T, String>` is `Except String T`.
-/

namespace BKDNS

/-- Big-endian bytes of a 16-bit value, as produced by Rust `u16::to_be_bytes`.
For arguments below `2 ^ 16` this is exact; the `% 256` mirrors the truncation
to bytes. -/
def u16beBytes (n : Nat) : List Nat :=
  [n / 256 % 256, n % 256]

/-- Big-endian 16-bit read at offset `i`, as done by Rust
`u16::from_be_bytes(bytes[i..i+2])`. -/
def be16 (bytes : List Nat) (i : Nat) : Nat :=
  256 * bytes.getD i 0 + bytes.getD (i + 1) 0

/-- Constant `HEADER_SIZE` from packet.rs: `size_of::<u16>() * 6` bytes. -/
def HEADER_SIZE : Nat := 2 * 6

/-- Constant `RECORD_CLASS` from packet.rs: record class is always Internet/IN/1. -/
def RECORD_CLASS : Nat := 1

/-- The flags record of packet.rs (`struct DNSFlags`); `opcode` and
`reply_code` are `u8` in the source, modelled as `Nat`. -/
structure DNSFlags where
  is_response : Bool
  opcode : Nat
  is_authoritative : Bool
  is_truncated : Bool
  recurse_desired : Bool
  recurse_available : Bool
  answer_authed : Bool
  unauth_ok : Bool
  reply_code : Nat
  deriving DecidableEq, Repr

/-- Rust `DNSFlags::default()`: every field false or zero. -/
def DNSFlags.default : DNSFlags where
  is_response := false
  opcode := 0
  is_authoritative := false
  is_truncated := false
  recurse_desired := false
  recurse_available := false
  answer_authed := false
  unauth_ok := false
  reply_code := 0

/-- Rust `DNSFlags::serialize`: pack the record into a 16-bit word by OR-ing each
field shifted to its position; `opcode` and `reply_code` are masked to their
low 4 bits, booleans contribute their `as u16` value, bit 6 (Z) is left zero. -/
def DNSFlags.serialize (f : DNSFlags) : Nat :=
  let flags : Nat := 0
  let flags := flags ||| (f.is_response.toNat <<< 15)
  let flags := flags ||| ((f.opcode &&& 0xF) <<< 11)
  let flags := flags ||| (f.is_authoritative.toNat <<< 10)
  let flags := flags ||| (f.is_truncated.toNat <<< 9)
  let flags := flags ||| (f.recurse_desired.toNat <<< 8)
  let flags := flags ||| (f.recurse_available.toNat <<< 7)
  let flags := flags ||| (f.answer_authed.toNat <<< 5)
  let flags := flags ||| (f.unauth_ok.toNat <<< 4)
  let flags := flags ||| (f.reply_code &&& 0xF)
  flags

/-- Rust `DNSFlags::from`: unpack a 16-bit word into the flags record, each boolean
being the test that the masked bits are nonzero, `opcode` bits 14..11 and
`reply_code` bits 3..0 zero-extended. -/
def DNSFlags.fromWord (w : Nat) : DNSFlags where
  is_response := decide (0 < (w &&& 0x8000))
  opcode := (w &&& 0x7800) >>> 11
  is_authoritative := decide (0 < (w &&& 0x400))
  is_truncated := decide (0 < (w &&& 0x200))
  recurse_desired := decide (0 < (w &&& 0x100))
  recurse_available := decide (0 < (w &&& 0x80))
  answer_authed := decide (0 < (w &&& 0x20))
  unauth_ok := decide (0 < (w &&& 0x10))
  reply_code := w &&& 0xF

/-- Record types and their IANA numeric codes (`enum RecordType`; main.rs
declares an identical enum with the identical `value` mapping, so one
embedding serves both files). -/
inductive RecordType where
  | A
  | NS
  | CNAME
  | SOA
  | PTR
  | MX
  | TXT
  deriving DecidableEq, Repr

/-- Rust `RecordType::value`. -/
def RecordType.value : RecordType → Nat
  | .A => 1
  | .NS => 2
  | .CNAME => 5
  | .SOA => 6
  | .PTR => 12
  | .MX => 15
  | .TXT => 16

/-- The header record of packet.rs (`struct DNSHeader`); all six fields are
`u16` in the source, modelled as `Nat`. -/
structure DNSHeader where
  id : Nat
  flags : DNSFlags
  question_count : Nat
  answer_count : Nat
  authority_count : Nat
  additional_count : Nat
  deriving DecidableEq, Repr

/-- Rust `DNSHeader::serialize`: the big-endian encodings of the six 16-bit fields
in order, the flags going through the flags codec. -/
def DNSHeader.serialize (h : DNSHeader) : List Nat :=
  u16beBytes h.id ++ u16beBytes h.flags.serialize ++ u16beBytes h.question_count
    ++ u16beBytes h.answer_count ++ u16beBytes h.authority_count
    ++ u16beBytes h.additional_count

/-- Rust `DNSHeader::deserialize`: error when fewer than `HEADER_SIZE` bytes are
given (the message carries the expected and actual counts, as the format macro in the source does); otherwise read the six big-endian 16-bit fields in order,
passing the flags word through the flags codec. -/
def DNSHeader.deserialize (bytes : List Nat) : Except String DNSHeader :=
  if bytes.length < HEADER_SIZE then
    .error ("Failed to parse header. Expected " ++ toString HEADER_SIZE
      ++ " bytes, got: " ++ toString bytes.length)
  else
    .ok { id := be16 bytes 0
          flags := DNSFlags.fromWord (be16 bytes 2)
          question_count := be16 bytes 4
          answer_count := be16 bytes 6
          authority_count := be16 bytes 8
          additional_count := be16 bytes 10 }

/-- Rust `char::to_ascii_lowercase`: ASCII letters A..Z map to a..z, every
other character is unchanged. -/
def to_ascii_lowercase (c : Char) : Char :=
  if 65 ≤ c.toNat ∧ c.toNat ≤ 90 then Char.ofNat (c.toNat + 32) else c

/-- Byte length of the UTF-8 encoding of one character: the per-character
contribution to Rust `str::len`. -/
def charUtf8Len (c : Char) : Nat :=
  if c.toNat ≤ 0x7F then 1
  else if c.toNat ≤ 0x7FF then 2
  else if c.toNat ≤ 0xFFFF then 3
  else 4

/-- Rust `str::len`: the UTF-8 byte length of a string. -/
def strLen (s : List Char) : Nat :=
  (s.map charUtf8Len).sum

/-- Rust `str::split(".")` collected into a vector: split at every literal
dot; the empty string yields one empty part. -/
def splitOnDot : List Char → List (List Char)
  | [] => [[]]
  | c :: rest =>
    match splitOnDot rest with
    | [] => [[]]
    | p :: ps => if c = '.' then [] :: p :: ps else (c :: p) :: ps

/-- Function `serialize_dns_str` from packet.rs: for each dot-separated part push its
byte length truncated to a byte (`part.len() as u8`), then one byte per
character (`chr.to_ascii_lowercase() as u8`, the low byte of the lowercased
code point); finally push the zero terminator. -/
def serialize_dns_str (dns_str : List Char) : List Nat :=
  ((splitOnDot dns_str).map fun part =>
    strLen part % 256 :: part.map fun chr => (to_ascii_lowercase chr).toNat % 256).flatten
  ++ [0]

/-- The question of packet.rs (`struct DNSQuestion`): a textual name plus a
record type; the class is implicit. -/
structure DNSQuestion where
  name : List Char
  qtype : RecordType

/-- Rust `DNSQuestion::serialize` from packet.rs: the label-encoded name, the
big-endian qtype value, then the big-endian record class (always 1). -/
def DNSQuestion.serialize (q : DNSQuestion) : List Nat :=
  serialize_dns_str q.name ++ u16beBytes q.qtype.value ++ u16beBytes RECORD_CLASS

/-- The packet of packet.rs: a header plus the ordered questions. -/
structure DNSPacket where
  header : DNSHeader
  questions : List DNSQuestion

/-- Rust `DNSPacket::new`: a fresh packet with a random id (`rand::random::<u16>()`,
modelled as the parameter `id`), default flags, all counts zero and no
questions. -/
def DNSPacket.new (id : Nat) : DNSPacket where
  header :=
    { id := id
      flags := DNSFlags.default
      question_count := 0
      answer_count := 0
      authority_count := 0
      additional_count := 0 }
  questions := []

/-- Rust `DNSPacket::add_question`: push the question and increment the `u16`
question count (16-bit wrap-around made explicit). -/
def DNSPacket.add_question (p : DNSPacket) (q : DNSQuestion) : DNSPacket where
  header := { p.header with question_count := (p.header.question_count + 1) % 65536 }
  questions := p.questions ++ [q]

/-- Adding a list of questions one at a time, in order. -/
def DNSPacket.add_questions (p : DNSPacket) (qs : List DNSQuestion) : DNSPacket :=
  qs.foldl DNSPacket.add_question p

/-- Rust `DNSPacket::serialize`: the header bytes followed by the serialization of
each question, in insertion order. -/
def DNSPacket.serialize (p : DNSPacket) : List Nat :=
  p.header.serialize ++ (p.questions.map DNSQuestion.serialize).flatten

/-- Rust `DNSPacket::deserialize`: its own short-input error when fewer than
`HEADER_SIZE` bytes are supplied; otherwise parse the first `HEADER_SIZE`
bytes through the header codec (the `?` operator propagating its error, a
path the guard makes unreachable) and return the header with an empty
question list. -/
def DNSPacket.deserialize (bytes : List Nat) : Except String DNSPacket :=
  if bytes.length < HEADER_SIZE then
    .error "Packet size is too small. Expected: Header"
  else
    match DNSHeader.deserialize (bytes.take HEADER_SIZE) with
    | .error e => .error e
    | .ok header => .ok { header := header, questions := [] }

namespace Main

/-- Enum `RecordClass` from main.rs; only `IN` exists. -/
inductive RecordClass where
  | IN
  deriving DecidableEq, Repr

/-- Rust `RecordClass::value` from main.rs. -/
def RecordClass.value : RecordClass → Nat
  | .IN => 1

/-- The legacy question of main.rs: the name is stored pre-encoded as label
bytes, and the class is an explicit field. -/
structure DNSQuestion where
  name : List Nat
  qtype : RecordType
  qclass : RecordClass

/-- Rust `DNSQuestion::new` from main.rs: encode the name into label bytes at
construction time with the split/lowercase/length-prefix/terminator loop,
written as the imperative push loop of the source (folds that append to the
byte buffer). -/
def DNSQuestion.new (name : List Char) (qtype : RecordType) : DNSQuestion where
  name :=
    ((splitOnDot name).foldl (fun acc part =>
      part.foldl (fun a chr => a ++ [(to_ascii_lowercase chr).toNat % 256])
        (acc ++ [strLen part % 256])) []) ++ [0]
  qtype := qtype
  qclass := RecordClass.IN

/-- Rust `DNSQuestion::to_bytes` from main.rs: the stored name bytes, the
big-endian qtype value, then the big-endian class value. -/
def DNSQuestion.to_bytes (q : DNSQuestion) : List Nat :=
  q.name ++ u16beBytes q.qtype.value ++ u16beBytes q.qclass.value

end Main

/-! Arithmetic view of the bit operations used by the flags codec. -/

/-- An OR whose left operand is a multiple of `2 ^ i` and whose right operand
lies below `2 ^ i` is an addition. -/
theorem or_chunk (i x c : Nat) (hx : ∃ a, x = 2 ^ i * a) (hc : c < 2 ^ i) :
    x ||| c = x + c := by
  obtain ⟨a, rfl⟩ := hx
  rw [← Nat.mul_add_lt_is_or hc]

/-- Masking with a contiguous window of `m` bits starting at bit `k` extracts
`w / 2 ^ k % 2 ^ m`, re-shifted into place. -/
theorem and_window (w k m : Nat) :
    w &&& (2 ^ m - 1) * 2 ^ k = w / 2 ^ k % 2 ^ m * 2 ^ k := by
  apply Nat.eq_of_testBit_eq
  intro i
  rw [← Nat.shiftLeft_eq (2 ^ m - 1) k, ← Nat.shiftLeft_eq _ k,
    ← Nat.shiftRight_eq_div_pow w k]
  simp only [Nat.testBit_and, Nat.testBit_shiftLeft, Nat.testBit_two_pow_sub_one,
    Nat.testBit_mod_two_pow, Nat.testBit_shiftRight]
  by_cases hk : k ≤ i
  · simp [hk, Nat.add_sub_cancel' hk, Bool.and_comm]
  · simp [hk]

/-- The function `DNSFlags.serialize` written as a plain sum: the OR-ed chunks occupy
disjoint bit ranges. -/
theorem DNSFlags.serialize_eq_sum (f : DNSFlags) :
    f.serialize = f.is_response.toNat * 32768 + (f.opcode &&& 15) * 2048
      + f.is_authoritative.toNat * 1024 + f.is_truncated.toNat * 512
      + f.recurse_desired.toNat * 256 + f.recurse_available.toNat * 128
      + f.answer_authed.toNat * 32 + f.unauth_ok.toNat * 16
      + (f.reply_code &&& 15) := by
  have hop : f.opcode &&& 15 ≤ 15 := Nat.and_le_right
  have hrc : f.reply_code &&& 15 ≤ 15 := Nat.and_le_right
  have h15 : f.is_response.toNat ≤ 1 := Bool.toNat_le f.is_response
  have h10 : f.is_authoritative.toNat ≤ 1 := Bool.toNat_le f.is_authoritative
  have h9 : f.is_truncated.toNat ≤ 1 := Bool.toNat_le f.is_truncated
  have h8 : f.recurse_desired.toNat ≤ 1 := Bool.toNat_le f.recurse_desired
  have h7 : f.recurse_available.toNat ≤ 1 := Bool.toNat_le f.recurse_available
  have h5 : f.answer_authed.toNat ≤ 1 := Bool.toNat_le f.answer_authed
  have h4 : f.unauth_ok.toNat ≤ 1 := Bool.toNat_le f.unauth_ok
  simp only [DNSFlags.serialize, Nat.shiftLeft_eq, Nat.zero_or]
  rw [or_chunk 15 (f.is_response.toNat * 32768) ((f.opcode &&& 15) * 2048)
      ⟨f.is_response.toNat, by ring⟩ (by omega),
    or_chunk 11 (f.is_response.toNat * 32768 + (f.opcode &&& 15) * 2048)
      (f.is_authoritative.toNat * 1024)
      ⟨f.is_response.toNat * 16 + (f.opcode &&& 15), by ring⟩ (by omega),
    or_chunk 10 (f.is_response.toNat * 32768 + (f.opcode &&& 15) * 2048
        + f.is_authoritative.toNat * 1024)
      (f.is_truncated.toNat * 512)
      ⟨f.is_response.toNat * 32 + (f.opcode &&& 15) * 2
        + f.is_authoritative.toNat, by ring⟩ (by omega),
    or_chunk 9 (f.is_response.toNat * 32768 + (f.opcode &&& 15) * 2048
        + f.is_authoritative.toNat * 1024 + f.is_truncated.toNat * 512)
      (f.recurse_desired.toNat * 256)
      ⟨f.is_response.toNat * 64 + (f.opcode &&& 15) * 4
        + f.is_authoritative.toNat * 2 + f.is_truncated.toNat, by ring⟩ (by omega),
    or_chunk 8 (f.is_response.toNat * 32768 + (f.opcode &&& 15) * 2048
        + f.is_authoritative.toNat * 1024 + f.is_truncated.toNat * 512
        + f.recurse_desired.toNat * 256)
      (f.recurse_available.toNat * 128)
      ⟨f.is_response.toNat * 128 + (f.opcode &&& 15) * 8
        + f.is_authoritative.toNat * 4 + f.is_truncated.toNat * 2
        + f.recurse_desired.toNat, by ring⟩ (by omega),
    or_chunk 7 (f.is_response.toNat * 32768 + (f.opcode &&& 15) * 2048
        + f.is_authoritative.toNat * 1024 + f.is_truncated.toNat * 512
        + f.recurse_desired.toNat * 256 + f.recurse_available.toNat * 128)
      (f.answer_authed.toNat * 32)
      ⟨f.is_response.toNat * 256 + (f.opcode &&& 15) * 16
        + f.is_authoritative.toNat * 8 + f.is_truncated.toNat * 4
        + f.recurse_desired.toNat * 2 + f.recurse_available.toNat, by ring⟩ (by omega),
    or_chunk 5 (f.is_response.toNat * 32768 + (f.opcode &&& 15) * 2048
        + f.is_authoritative.toNat * 1024 + f.is_truncated.toNat * 512
        + f.recurse_desired.toNat * 256 + f.recurse_available.toNat * 128
        + f.answer_authed.toNat * 32)
      (f.unauth_ok.toNat * 16)
      ⟨f.is_response.toNat * 1024 + (f.opcode &&& 15) * 64
        + f.is_authoritative.toNat * 32 + f.is_truncated.toNat * 16
        + f.recurse_desired.toNat * 8 + f.recurse_available.toNat * 4
        + f.answer_authed.toNat, by ring⟩ (by omega),
    or_chunk 4 (f.is_response.toNat * 32768 + (f.opcode &&& 15) * 2048
        + f.is_authoritative.toNat * 1024 + f.is_truncated.toNat * 512
        + f.recurse_desired.toNat * 256 + f.recurse_available.toNat * 128
        + f.answer_authed.toNat * 32 + f.unauth_ok.toNat * 16)
      (f.reply_code &&& 15)
      ⟨f.is_response.toNat * 2048 + (f.opcode &&& 15) * 128
        + f.is_authoritative.toNat * 64 + f.is_truncated.toNat * 32
        + f.recurse_desired.toNat * 16 + f.recurse_available.toNat * 8
        + f.answer_authed.toNat * 2 + f.unauth_ok.toNat, by ring⟩ (by omega)]

/-- The function `DNSFlags.fromWord` written with plain division and remainder in place of
the masks and shifts. -/
theorem DNSFlags.fromWord_eq (w : Nat) :
    DNSFlags.fromWord w =
      { is_response := decide (w / 32768 % 2 = 1)
        opcode := w / 2048 % 16
        is_authoritative := decide (w / 1024 % 2 = 1)
        is_truncated := decide (w / 512 % 2 = 1)
        recurse_desired := decide (w / 256 % 2 = 1)
        recurse_available := decide (w / 128 % 2 = 1)
        answer_authed := decide (w / 32 % 2 = 1)
        unauth_ok := decide (w / 16 % 2 = 1)
        reply_code := w % 16 } := by
  have wbit : ∀ k : Nat, w &&& 2 ^ k = w / 2 ^ k % 2 * 2 ^ k := by
    intro k
    have h := and_window w k 1
    simpa using h
  have w15 := wbit 15; have w10 := wbit 10; have w9 := wbit 9
  have w8 := wbit 8; have w7 := wbit 7; have w5 := wbit 5; have w4 := wbit 4
  norm_num at w15 w10 w9 w8 w7 w5 w4
  have w11 : w &&& 30720 = w / 2048 % 16 * 2048 := by
    have h := and_window w 11 4
    norm_num at h
    exact h
  have w0 : w &&& 15 = w % 16 := by
    have h := Nat.and_pow_two_sub_one_eq_mod w 4
    norm_num at h
    exact h
  simp only [DNSFlags.fromWord, DNSFlags.mk.injEq]
  refine ⟨?_, ?_, ?_, ?_, ?_, ?_, ?_, ?_, ?_⟩
  · rw [show (0x8000 : Nat) = 32768 from rfl, w15, decide_eq_decide]
    omega
  · rw [show (0x7800 : Nat) = 30720 from rfl, w11, Nat.shiftRight_eq_div_pow]
    norm_num
  · rw [show (0x400 : Nat) = 1024 from rfl, w10, decide_eq_decide]
    omega
  · rw [show (0x200 : Nat) = 512 from rfl, w9, decide_eq_decide]
    omega
  · rw [show (0x100 : Nat) = 256 from rfl, w8, decide_eq_decide]
    omega
  · rw [show (0x80 : Nat) = 128 from rfl, w7, decide_eq_decide]
    omega
  · rw [show (0x20 : Nat) = 32 from rfl, w5, decide_eq_decide]
    omega
  · rw [show (0x10 : Nat) = 16 from rfl, w4, decide_eq_decide]
    omega
  · rw [show (0xF : Nat) = 15 from rfl, w0]

/-- The packed flags word always fits in 16 bits. -/
theorem DNSFlags.serialize_lt (f : DNSFlags) : f.serialize < 2 ^ 16 := by
  have h := f.serialize_eq_sum
  have hop : f.opcode &&& 0xF ≤ 15 := Nat.and_le_right
  have hrc : f.reply_code &&& 0xF ≤ 15 := Nat.and_le_right
  have h15 : f.is_response.toNat ≤ 1 := Bool.toNat_le f.is_response
  have h10 : f.is_authoritative.toNat ≤ 1 := Bool.toNat_le f.is_authoritative
  have h9 : f.is_truncated.toNat ≤ 1 := Bool.toNat_le f.is_truncated
  have h8 : f.recurse_desired.toNat ≤ 1 := Bool.toNat_le f.recurse_desired
  have h7 : f.recurse_available.toNat ≤ 1 := Bool.toNat_le f.recurse_available
  have h5 : f.answer_authed.toNat ≤ 1 := Bool.toNat_le f.answer_authed
  have h4 : f.unauth_ok.toNat ≤ 1 := Bool.toNat_le f.unauth_ok
  omega

/-- Shared round-trip fact for the flags codec: unpacking the packed word
recovers the record whenever opcode and reply_code fit in 4 bits. -/
theorem DNSFlags.fromWord_serialize (f : DNSFlags) (hop : f.opcode ≤ 15)
    (hrc : f.reply_code ≤ 15) : DNSFlags.fromWord f.serialize = f := by
  obtain ⟨r, op, aa, tc, rd, ra, ad, cd, rc⟩ := f
  simp only [] at hop hrc
  have hs := DNSFlags.serialize_eq_sum ⟨r, op, aa, tc, rd, ra, ad, cd, rc⟩
  simp only [] at hs
  have hmop : op &&& 15 = op := by
    have h := Nat.and_pow_two_sub_one_of_lt_two_pow (show op < 2 ^ 4 by omega)
    norm_num at h
    exact h
  have hmrc : rc &&& 15 = rc := by
    have h := Nat.and_pow_two_sub_one_of_lt_two_pow (show rc < 2 ^ 4 by omega)
    norm_num at h
    exact h
  rw [hmop, hmrc] at hs
  rw [hs, DNSFlags.fromWord_eq]
  have br := Bool.toNat_le r
  have baa := Bool.toNat_le aa
  have btc := Bool.toNat_le tc
  have brd := Bool.toNat_le rd
  have bra := Bool.toNat_le ra
  have bad := Bool.toNat_le ad
  have bcd := Bool.toNat_le cd
  simp only [DNSFlags.mk.injEq]
  refine ⟨?_, by omega, ?_, ?_, ?_, ?_, ?_, ?_, by omega⟩
  · rw [show (r.toNat * 32768 + op * 2048 + aa.toNat * 1024 + tc.toNat * 512
      + rd.toNat * 256 + ra.toNat * 128 + ad.toNat * 32 + cd.toNat * 16 + rc)
      / 32768 % 2 = r.toNat by omega]
    cases r <;> decide
  · rw [show (r.toNat * 32768 + op * 2048 + aa.toNat * 1024 + tc.toNat * 512
      + rd.toNat * 256 + ra.toNat * 128 + ad.toNat * 32 + cd.toNat * 16 + rc)
      / 1024 % 2 = aa.toNat by omega]
    cases aa <;> decide
  · rw [show (r.toNat * 32768 + op * 2048 + aa.toNat * 1024 + tc.toNat * 512
      + rd.toNat * 256 + ra.toNat * 128 + ad.toNat * 32 + cd.toNat * 16 + rc)
      / 512 % 2 = tc.toNat by omega]
    cases tc <;> decide
  · rw [show (r.toNat * 32768 + op * 2048 + aa.toNat * 1024 + tc.toNat * 512
      + rd.toNat * 256 + ra.toNat * 128 + ad.toNat * 32 + cd.toNat * 16 + rc)
      / 256 % 2 = rd.toNat by omega]
    cases rd <;> decide
  · rw [show (r.toNat * 32768 + op * 2048 + aa.toNat * 1024 + tc.toNat * 512
      + rd.toNat * 256 + ra.toNat * 128 + ad.toNat * 32 + cd.toNat * 16 + rc)
      / 128 % 2 = ra.toNat by omega]
    cases ra <;> decide
  · rw [show (r.toNat * 32768 + op * 2048 + aa.toNat * 1024 + tc.toNat * 512
      + rd.toNat * 256 + ra.toNat * 128 + ad.toNat * 32 + cd.toNat * 16 + rc)
      / 32 % 2 = ad.toNat by omega]
    cases ad <;> decide
  · rw [show (r.toNat * 32768 + op * 2048 + aa.toNat * 1024 + tc.toNat * 512
      + rd.toNat * 256 + ra.toNat * 128 + ad.toNat * 32 + cd.toNat * 16 + rc)
      / 16 % 2 = cd.toNat by omega]
    cases cd <;> decide

/-- C1: for every flags record whose opcode and reply_code values fit in 4
bits (are at most 15), deserializing the serialized 16-bit flags word returns
a record equal to the original: `DNSFlags::from(x.serialize()) == x`. -/
theorem C1_flags_roundtrip (f : DNSFlags) (hop : f.opcode ≤ 15)
    (hrc : f.reply_code ≤ 15) : DNSFlags.fromWord f.serialize = f :=
  DNSFlags.fromWord_serialize f hop hrc

/-- Witness for C1 at a concrete flags record with opcode 4 and reply_code 3. -/
theorem C1_flags_roundtrip_witness :
    (4 : Nat) ≤ 15 ∧ (3 : Nat) ≤ 15 ∧
      DNSFlags.fromWord
        (DNSFlags.serialize ⟨true, 4, false, true, true, false, false, true, 3⟩)
        = ⟨true, 4, false, true, true, false, false, true, 3⟩ :=
  ⟨by decide, by decide,
    C1_flags_roundtrip ⟨true, 4, false, true, true, false, false, true, 3⟩
      (by decide) (by decide)⟩

/-- The short-header error message assembled by the codec, with the expected
count rendered: it is the literal text with both counts. -/
theorem header_error_eq (n : Nat) :
    "Failed to parse header. Expected " ++ toString HEADER_SIZE ++ " bytes, got: "
        ++ toString n
      = "Failed to parse header. Expected 12 bytes, got: " ++ toString n := by
  rw [show toString HEADER_SIZE = "12" from rfl]
  congr 1

/-- C7: for every header record, serialization produces exactly 12 bytes: the
big-endian encodings of id, packed flags, question_count, answer_count,
authority_count and additional_count, in that order. -/
theorem C7_header_serialize_bytes (h : DNSHeader) :
    h.serialize.length = 12 ∧
      h.serialize = u16beBytes h.id ++ u16beBytes h.flags.serialize
        ++ u16beBytes h.question_count ++ u16beBytes h.answer_count
        ++ u16beBytes h.authority_count ++ u16beBytes h.additional_count := by
  refine ⟨?_, rfl⟩
  simp [DNSHeader.serialize, u16beBytes]

/-- C6: header deserialization errors exactly when the input holds fewer than
12 bytes, the error reporting the expected count 12 and the actual count; with
12 or more bytes it succeeds, reading the six big-endian 16-bit fields in
order and passing the flags word through the flags codec. -/
theorem C6_header_deserialize_cases (bytes : List Nat) :
    (bytes.length < 12 →
      DNSHeader.deserialize bytes =
        .error ("Failed to parse header. Expected 12 bytes, got: "
          ++ toString bytes.length)) ∧
    (12 ≤ bytes.length →
      DNSHeader.deserialize bytes =
        .ok { id := be16 bytes 0
              flags := DNSFlags.fromWord (be16 bytes 2)
              question_count := be16 bytes 4
              answer_count := be16 bytes 6
              authority_count := be16 bytes 8
              additional_count := be16 bytes 10 }) := by
  constructor
  · intro hlt
    rw [DNSHeader.deserialize, if_pos (show bytes.length < HEADER_SIZE from hlt),
      header_error_eq]
  · intro hge
    rw [DNSHeader.deserialize, if_neg (show ¬bytes.length < HEADER_SIZE by
      simp only [HEADER_SIZE]; omega)]

/-- Witness for C6 at a 2-byte input (failure side) and a 12-byte input
(success side). -/
theorem C6_header_deserialize_cases_witness :
    DNSHeader.deserialize [1, 2] =
      .error ("Failed to parse header. Expected 12 bytes, got: "
        ++ toString (([1, 2] : List Nat).length)) ∧
    DNSHeader.deserialize [0, 1, 0, 0, 0, 2, 0, 3, 0, 4, 0, 5] =
      .ok { id := be16 [0, 1, 0, 0, 0, 2, 0, 3, 0, 4, 0, 5] 0
            flags := DNSFlags.fromWord (be16 [0, 1, 0, 0, 0, 2, 0, 3, 0, 4, 0, 5] 2)
            question_count := be16 [0, 1, 0, 0, 0, 2, 0, 3, 0, 4, 0, 5] 4
            answer_count := be16 [0, 1, 0, 0, 0, 2, 0, 3, 0, 4, 0, 5] 6
            authority_count := be16 [0, 1, 0, 0, 0, 2, 0, 3, 0, 4, 0, 5] 8
            additional_count := be16 [0, 1, 0, 0, 0, 2, 0, 3, 0, 4, 0, 5] 10 } :=
  ⟨(C6_header_deserialize_cases [1, 2]).1 (by decide),
    (C6_header_deserialize_cases [0, 1, 0, 0, 0, 2, 0, 3, 0, 4, 0, 5]).2 (by decide)⟩

/-- Shared header round-trip helper: deserializing the 12 serialized bytes
recovers the header, for in-range field values. -/
theorem DNSHeader.deserialize_serialize (h : DNSHeader) (hid : h.id < 65536)
    (hqc : h.question_count < 65536) (hac : h.answer_count < 65536)
    (hauc : h.authority_count < 65536) (hadc : h.additional_count < 65536)
    (hop : h.flags.opcode ≤ 15) (hrc : h.flags.reply_code ≤ 15) :
    DNSHeader.deserialize h.serialize = .ok h := by
  obtain ⟨id, fl, qc, ac, auc, adc⟩ := h
  simp only [] at hid hqc hac hauc hadc hop hrc
  have hfl : fl.serialize < 65536 := by
    have hl := fl.serialize_lt
    norm_num at hl
    exact hl
  have hser : DNSHeader.serialize ⟨id, fl, qc, ac, auc, adc⟩ =
      [id / 256 % 256, id % 256, fl.serialize / 256 % 256, fl.serialize % 256,
        qc / 256 % 256, qc % 256, ac / 256 % 256, ac % 256,
        auc / 256 % 256, auc % 256, adc / 256 % 256, adc % 256] := by
    simp [DNSHeader.serialize, u16beBytes]
  rw [hser, DNSHeader.deserialize,
    if_neg (show ¬([id / 256 % 256, id % 256, fl.serialize / 256 % 256,
      fl.serialize % 256, qc / 256 % 256, qc % 256, ac / 256 % 256, ac % 256,
      auc / 256 % 256, auc % 256, adc / 256 % 256, adc % 256].length < HEADER_SIZE)
      by simp [HEADER_SIZE])]
  simp only [be16, List.getD_cons_zero, List.getD_cons_succ, Except.ok.injEq,
    DNSHeader.mk.injEq]
  refine ⟨by omega, ?_, by omega, by omega, by omega, by omega⟩
  rw [show 256 * (fl.serialize / 256 % 256) + fl.serialize % 256 = fl.serialize
    by omega]
  exact DNSFlags.fromWord_serialize fl hop hrc

/-- C3: for every header record with in-range (`u16`) field values whose flags
have opcode and reply_code in `[0, 15]`, deserializing the 12 serialized
header bytes returns `Ok` of a header equal to the original. -/
theorem C3_header_roundtrip (h : DNSHeader) (hid : h.id < 65536)
    (hqc : h.question_count < 65536) (hac : h.answer_count < 65536)
    (hauc : h.authority_count < 65536) (hadc : h.additional_count < 65536)
    (hop : h.flags.opcode ≤ 15) (hrc : h.flags.reply_code ≤ 15) :
    DNSHeader.deserialize h.serialize = .ok h :=
  DNSHeader.deserialize_serialize h hid hqc hac hauc hadc hop hrc

/-- Witness for C3 at the concrete header of the serialize_header test in
the source (id 0x1314, default flags, counts 1 2 3 4). -/
theorem C3_header_roundtrip_witness :
    (0x1314 : Nat) < 65536 ∧ (1 : Nat) < 65536 ∧ (2 : Nat) < 65536 ∧
    (3 : Nat) < 65536 ∧ (4 : Nat) < 65536 ∧ (0 : Nat) ≤ 15 ∧ (0 : Nat) ≤ 15 ∧
      DNSHeader.deserialize
        (DNSHeader.serialize ⟨0x1314, DNSFlags.default, 1, 2, 3, 4⟩)
        = .ok ⟨0x1314, DNSFlags.default, 1, 2, 3, 4⟩ :=
  ⟨by decide, by decide, by decide, by decide, by decide, by decide, by decide,
    C3_header_roundtrip ⟨0x1314, DNSFlags.default, 1, 2, 3, 4⟩ (by decide)
      (by decide) (by decide) (by decide) (by decide) (by decide) (by decide)⟩

/-- Reading inside the taken prefix sees the original list. -/
theorem getD_take_of_lt (l : List Nat) (n i : Nat) (hi : i < n) :
    (l.take n).getD i 0 = l.getD i 0 := by
  rw [List.getD_eq_getElem?_getD, List.getD_eq_getElem?_getD,
    List.getElem?_take_of_lt hi]

/-- A big-endian 16-bit read strictly inside the taken prefix sees the
original list. -/
theorem be16_take (bytes : List Nat) (n i : Nat) (h : i + 1 < n) :
    be16 (bytes.take n) i = be16 bytes i := by
  rw [be16, be16, getD_take_of_lt bytes n i (by omega),
    getD_take_of_lt bytes n (i + 1) h]

/-- Short-input side of the header codec, shared between claims. -/
theorem DNSHeader.deserialize_of_lt (bytes : List Nat) (hlt : bytes.length < 12) :
    DNSHeader.deserialize bytes =
      .error ("Failed to parse header. Expected 12 bytes, got: "
        ++ toString bytes.length) := by
  rw [DNSHeader.deserialize, if_pos (show bytes.length < HEADER_SIZE from hlt),
    header_error_eq]

/-- Success side of the header codec, shared between claims. -/
theorem DNSHeader.deserialize_of_ge (bytes : List Nat) (hge : 12 ≤ bytes.length) :
    DNSHeader.deserialize bytes =
      .ok { id := be16 bytes 0
            flags := DNSFlags.fromWord (be16 bytes 2)
            question_count := be16 bytes 4
            answer_count := be16 bytes 6
            authority_count := be16 bytes 8
            additional_count := be16 bytes 10 } := by
  rw [DNSHeader.deserialize, if_neg (show ¬bytes.length < HEADER_SIZE by
    simp only [HEADER_SIZE]; omega)]

/-- C2 as stated is false: on a short input the packet assembler does not
propagate the error value of the header codec. At the empty input the assembler
returns its own "Packet size is too small" message while the header codec
produces the "Failed to parse header" message, and the two strings differ. -/
theorem C2_counterexample :
    DNSPacket.deserialize [] =
      .error "Packet size is too small. Expected: Header" ∧
    DNSHeader.deserialize [] =
      .error "Failed to parse header. Expected 12 bytes, got: 0" ∧
    "Packet size is too small. Expected: Header"
      ≠ "Failed to parse header. Expected 12 bytes, got: 0" := by
  refine ⟨rfl, ?_, by decide⟩
  rw [DNSHeader.deserialize_of_lt [] (by decide)]
  rfl

/-- C2 amended: the packet assembler fails exactly when fewer than 12 bytes
are supplied, but with its own "Packet size is too small" error rather than
the error of the header codec; with at least 12 bytes it returns a packet carrying the
header parsed from the first 12 bytes and an empty question list, ignoring
all bytes beyond the header. -/
theorem C2_packet_deserialize (bytes : List Nat) :
    (bytes.length < 12 →
      DNSPacket.deserialize bytes =
        .error "Packet size is too small. Expected: Header") ∧
    (12 ≤ bytes.length →
      DNSPacket.deserialize bytes =
        .ok { header := { id := be16 bytes 0
                          flags := DNSFlags.fromWord (be16 bytes 2)
                          question_count := be16 bytes 4
                          answer_count := be16 bytes 6
                          authority_count := be16 bytes 8
                          additional_count := be16 bytes 10 }
              questions := [] }) := by
  constructor
  · intro hlt
    rw [DNSPacket.deserialize, if_pos (show bytes.length < HEADER_SIZE from hlt)]
  · intro hge
    rw [DNSPacket.deserialize, if_neg (show ¬bytes.length < HEADER_SIZE by
      simp only [HEADER_SIZE]; omega)]
    rw [DNSHeader.deserialize_of_ge (bytes.take HEADER_SIZE) (by
      simp only [HEADER_SIZE, List.length_take]
      omega)]
    rw [show (HEADER_SIZE : Nat) = 12 from rfl,
      be16_take bytes 12 0 (by omega), be16_take bytes 12 2 (by omega),
      be16_take bytes 12 4 (by omega), be16_take bytes 12 6 (by omega),
      be16_take bytes 12 8 (by omega), be16_take bytes 12 10 (by omega)]

/-- Witness for C2 (amended) at a 3-byte input (failure side) and a 14-byte
input (success side, the two trailing bytes ignored). -/
theorem C2_packet_deserialize_witness :
    DNSPacket.deserialize [9, 9, 9] =
      .error "Packet size is too small. Expected: Header" ∧
    DNSPacket.deserialize [0, 7, 0, 0, 0, 1, 0, 0, 0, 0, 0, 0, 77, 88] =
      .ok { header := { id := be16 [0, 7, 0, 0, 0, 1, 0, 0, 0, 0, 0, 0, 77, 88] 0
                        flags := DNSFlags.fromWord
                          (be16 [0, 7, 0, 0, 0, 1, 0, 0, 0, 0, 0, 0, 77, 88] 2)
                        question_count :=
                          be16 [0, 7, 0, 0, 0, 1, 0, 0, 0, 0, 0, 0, 77, 88] 4
                        answer_count :=
                          be16 [0, 7, 0, 0, 0, 1, 0, 0, 0, 0, 0, 0, 77, 88] 6
                        authority_count :=
                          be16 [0, 7, 0, 0, 0, 1, 0, 0, 0, 0, 0, 0, 77, 88] 8
                        additional_count :=
                          be16 [0, 7, 0, 0, 0, 1, 0, 0, 0, 0, 0, 0, 77, 88] 10 }
            questions := [] } :=
  ⟨(C2_packet_deserialize [9, 9, 9]).1 (by decide),
    (C2_packet_deserialize [0, 7, 0, 0, 0, 1, 0, 0, 0, 0, 0, 0, 77, 88]).2
      (by decide)⟩

/-- Adding questions one at a time appends them in order. -/
theorem DNSPacket.add_questions_questions (p : DNSPacket)
    (qs : List DNSQuestion) :
    (p.add_questions qs).questions = p.questions ++ qs := by
  induction qs generalizing p with
  | nil => simp [DNSPacket.add_questions]
  | cons q qs ih =>
    rw [DNSPacket.add_questions, List.foldl_cons,
      show List.foldl DNSPacket.add_question (p.add_question q) qs
        = (p.add_question q).add_questions qs from rfl,
      ih, DNSPacket.add_question]
    simp

/-- Adding questions one at a time increments the question count once per
question, as long as the 16-bit counter does not wrap. -/
theorem DNSPacket.add_questions_count (p : DNSPacket) (qs : List DNSQuestion)
    (h : p.header.question_count + qs.length < 65536) :
    (p.add_questions qs).header.question_count
      = p.header.question_count + qs.length := by
  induction qs generalizing p with
  | nil => simp [DNSPacket.add_questions]
  | cons q qs ih =>
    rw [DNSPacket.add_questions, List.foldl_cons,
      show List.foldl DNSPacket.add_question (p.add_question q) qs
        = (p.add_question q).add_questions qs from rfl,
      ih (p.add_question q) (by
        simp only [DNSPacket.add_question, List.length_cons] at h ⊢
        omega)]
    simp only [List.length_cons] at h
    simp only [DNSPacket.add_question, List.length_cons]
    omega

/-- C5: a fresh packet has question_count zero and no questions; after adding
N questions the question_count of the header equals N (N within the 16-bit range),
and the serialization is the 12-byte encoding of the final header followed by
the serializations of the questions concatenated in insertion order, with no padding. -/
theorem C5_packet_questions (id : Nat) (qs : List DNSQuestion)
    (h : qs.length < 65536) :
    (DNSPacket.new id).header.question_count = 0 ∧
    (DNSPacket.new id).questions = [] ∧
    ((DNSPacket.new id).add_questions qs).header.question_count = qs.length ∧
    ((DNSPacket.new id).add_questions qs).serialize =
      ((DNSPacket.new id).add_questions qs).header.serialize
        ++ (qs.map DNSQuestion.serialize).flatten := by
  refine ⟨rfl, rfl, ?_, ?_⟩
  · rw [DNSPacket.add_questions_count (DNSPacket.new id) qs (by
      simp only [DNSPacket.new]
      omega)]
    simp [DNSPacket.new]
  · rw [DNSPacket.serialize, DNSPacket.add_questions_questions]
    simp [DNSPacket.new]

/-- Witness for C5 with two concrete questions. -/
theorem C5_packet_questions_witness :
    ([⟨"example.com".toList, RecordType.A⟩,
      ⟨"test.domain.com".toList, RecordType.MX⟩] : List DNSQuestion).length
        < 65536 ∧
    ((DNSPacket.new 0xFFFF).header.question_count = 0 ∧
     (DNSPacket.new 0xFFFF).questions = [] ∧
     ((DNSPacket.new 0xFFFF).add_questions
        [⟨"example.com".toList, RecordType.A⟩,
         ⟨"test.domain.com".toList, RecordType.MX⟩]).header.question_count
        = ([⟨"example.com".toList, RecordType.A⟩,
            ⟨"test.domain.com".toList, RecordType.MX⟩]
            : List DNSQuestion).length ∧
     ((DNSPacket.new 0xFFFF).add_questions
        [⟨"example.com".toList, RecordType.A⟩,
         ⟨"test.domain.com".toList, RecordType.MX⟩]).serialize =
       ((DNSPacket.new 0xFFFF).add_questions
          [⟨"example.com".toList, RecordType.A⟩,
           ⟨"test.domain.com".toList, RecordType.MX⟩]).header.serialize
         ++ (([⟨"example.com".toList, RecordType.A⟩,
               ⟨"test.domain.com".toList, RecordType.MX⟩]
               : List DNSQuestion).map DNSQuestion.serialize).flatten) :=
  ⟨by decide,
    C5_packet_questions 0xFFFF
      [⟨"example.com".toList, RecordType.A⟩,
       ⟨"test.domain.com".toList, RecordType.MX⟩] (by decide)⟩

/-- Packing a valid scalar value into a character and reading it back is the
identity. -/
theorem toNat_ofNat_valid {n : Nat} (h : n.isValidChar) :
    (Char.ofNat n).toNat = n := by
  unfold Char.ofNat
  rw [dif_pos h]
  rfl

/-- The code point of a lowercased character, arithmetically. -/
theorem toNat_to_ascii_lowercase (c : Char) :
    (to_ascii_lowercase c).toNat =
      if 65 ≤ c.toNat ∧ c.toNat ≤ 90 then c.toNat + 32 else c.toNat := by
  rw [to_ascii_lowercase]
  by_cases h : 65 ≤ c.toNat ∧ c.toNat ≤ 90
  · rw [if_pos h, if_pos h]
    exact toNat_ofNat_valid (Or.inl (by omega))
  · rw [if_neg h, if_neg h]

/-- Characters with equal code points are equal. -/
theorem char_eq_of_toNat_eq {a b : Char} (h : a.toNat = b.toNat) : a = b := by
  rw [← Char.ofNat_toNat a, ← Char.ofNat_toNat b, h]

/-- Lowercasing maps no character onto the dot and leaves the dot alone. -/
theorem to_ascii_lowercase_eq_dot_iff (c : Char) :
    to_ascii_lowercase c = '.' ↔ c = '.' := by
  constructor
  · intro h
    have ht := congrArg Char.toNat h
    rw [toNat_to_ascii_lowercase] at ht
    have h46 : ('.' : Char).toNat = 46 := rfl
    by_cases hc : 65 ≤ c.toNat ∧ c.toNat ≤ 90
    · rw [if_pos hc] at ht
      omega
    · rw [if_neg hc] at ht
      exact char_eq_of_toNat_eq ht
  · intro h
    subst h
    decide

/-- A lowercased character is never an uppercase ASCII letter. -/
theorem to_ascii_lowercase_not_upper (c : Char) :
    ¬(65 ≤ (to_ascii_lowercase c).toNat ∧ (to_ascii_lowercase c).toNat ≤ 90) := by
  rw [toNat_to_ascii_lowercase]
  by_cases hc : 65 ≤ c.toNat ∧ c.toNat ≤ 90
  · rw [if_pos hc]
    omega
  · rw [if_neg hc]
    omega

/-- Lowercasing is idempotent. -/
theorem to_ascii_lowercase_idem (c : Char) :
    to_ascii_lowercase (to_ascii_lowercase c) = to_ascii_lowercase c := by
  apply char_eq_of_toNat_eq
  rw [toNat_to_ascii_lowercase (to_ascii_lowercase c),
    if_neg (to_ascii_lowercase_not_upper c)]

/-- Lowercasing preserves the UTF-8 byte length of a character. -/
theorem charUtf8Len_to_ascii_lowercase (c : Char) :
    charUtf8Len (to_ascii_lowercase c) = charUtf8Len c := by
  rw [charUtf8Len, charUtf8Len, toNat_to_ascii_lowercase]
  by_cases hc : 65 ≤ c.toNat ∧ c.toNat ≤ 90
  · rw [if_pos hc, if_pos (by omega), if_pos (by omega)]
  · rw [if_neg hc]

/-- Lowercasing preserves the UTF-8 byte length of a string. -/
theorem strLen_map_lower (part : List Char) :
    strLen (part.map to_ascii_lowercase) = strLen part := by
  rw [strLen, strLen, List.map_map]
  congr 1
  apply List.map_congr_left
  intro c _
  exact charUtf8Len_to_ascii_lowercase c

/-- Splitting never yields an empty list of parts. -/
theorem splitOnDot_ne_nil (s : List Char) : splitOnDot s ≠ [] := by
  cases s with
  | nil => simp [splitOnDot]
  | cons c rest =>
    simp only [splitOnDot]
    cases hsp : splitOnDot rest with
    | nil => simp
    | cons p ps =>
      by_cases h : c = '.' <;> simp [h]

/-- Splitting commutes with lowercasing the input. -/
theorem splitOnDot_map_lower (s : List Char) :
    splitOnDot (s.map to_ascii_lowercase)
      = (splitOnDot s).map (List.map to_ascii_lowercase) := by
  induction s with
  | nil => simp [splitOnDot]
  | cons c rest ih =>
    cases hsp : splitOnDot rest with
    | nil => exact absurd hsp (splitOnDot_ne_nil rest)
    | cons p ps =>
      rw [List.map_cons]
      simp only [splitOnDot, ih, hsp, List.map_cons]
      by_cases h : c = '.'
      · rw [if_pos h, if_pos ((to_ascii_lowercase_eq_dot_iff c).mpr h)]
        simp
      · rw [if_neg h, if_neg (fun hl => h ((to_ascii_lowercase_eq_dot_iff c).mp hl))]
        simp

/-- The emitted bytes of one label are unchanged when the label is
pre-lowercased. -/
theorem emit_part_lower (part : List Char) :
    strLen (part.map to_ascii_lowercase) % 256
        :: (part.map to_ascii_lowercase).map
            (fun chr => (to_ascii_lowercase chr).toNat % 256)
      = strLen part % 256
        :: part.map fun chr => (to_ascii_lowercase chr).toNat % 256 := by
  rw [strLen_map_lower, List.map_map]
  congr 1
  apply List.map_congr_left
  intro c _
  show (to_ascii_lowercase (to_ascii_lowercase c)).toNat % 256
    = (to_ascii_lowercase c).toNat % 256
  rw [to_ascii_lowercase_idem]

/-- C9: label encoding is case-insensitive for ASCII input:
`serialize_dns_str "Example.COM" == serialize_dns_str "example.com"`, and in
general pre-lowercasing the input leaves the encoding unchanged (the ASCII characters of
each label are lowercased before emission). -/
theorem C9_case_folding :
    serialize_dns_str "Example.COM".toList
        = serialize_dns_str "example.com".toList ∧
    ∀ s : List Char,
      serialize_dns_str (s.map to_ascii_lowercase) = serialize_dns_str s := by
  refine ⟨by decide, ?_⟩
  intro s
  rw [serialize_dns_str, serialize_dns_str, splitOnDot_map_lower, List.map_map]
  congr 2
  apply List.map_congr_left
  intro part _
  exact emit_part_lower part

/-- C8: label encoding of the empty string yields exactly the two bytes
`00 00`: the zero length prefix of one empty label followed by the terminator. -/
theorem C8_empty_encoding : serialize_dns_str "".toList = [0x00, 0x00] := by
  decide

/-- Length of the per-label emissions: one prefix byte plus one byte per
character of each label. -/
theorem sum_emit_lengths (parts : List (List Char)) :
    ((parts.map fun part => strLen part % 256
        :: part.map fun chr => (to_ascii_lowercase chr).toNat % 256).map
      List.length).sum
      = (parts.map List.length).sum + parts.length := by
  induction parts with
  | nil => simp
  | cons p ps ih =>
    simp only [List.map_cons, List.length_cons, List.sum_cons, ih,
      List.length_map]
    omega

/-- C4 as stated is false: the length of the encoding counts one byte per
character, not per UTF-8 byte, of each label. At the one-character input
`"é"` (code point 233, a 2-byte character in UTF-8) the encoding is 3 bytes
long while the byte-length formula gives 4. -/
theorem C4_counterexample :
    (serialize_dns_str [Char.ofNat 233]).length = 3 ∧
    ((splitOnDot [Char.ofNat 233]).map strLen).sum
        + (splitOnDot [Char.ofNat 233]).length + 1 = 4 ∧
    (serialize_dns_str [Char.ofNat 233]).length ≠
      ((splitOnDot [Char.ofNat 233]).map strLen).sum
        + (splitOnDot [Char.ofNat 233]).length + 1 :=
  ⟨by decide, by decide, by decide⟩

/-- C4 amended: for every domain-name string, the label encoding is exactly
(sum of the numbers of characters of the dot-separated labels) + (number of
labels) + 1 bytes long; for all-ASCII labels the character count equals the
byte length, which recovers the formula of the claim. -/
theorem C4_label_encoding_length (s : List Char) :
    (serialize_dns_str s).length =
      ((splitOnDot s).map List.length).sum + (splitOnDot s).length + 1 := by
  rw [serialize_dns_str, List.length_append, List.length_flatten,
    sum_emit_lengths]
  simp

/-- Bytes pushed one at a time by the inner character loop. -/
theorem foldl_push_chars (part : List Char) (a : List Nat) :
    part.foldl (fun a chr => a ++ [(to_ascii_lowercase chr).toNat % 256]) a
      = a ++ part.map fun chr => (to_ascii_lowercase chr).toNat % 256 := by
  induction part generalizing a with
  | nil => simp
  | cons c cs ih =>
    rw [List.foldl_cons, ih]
    simp

/-- Bytes pushed by the outer label loop equal the flattened per-label
emissions. -/
theorem foldl_push_parts (parts : List (List Char)) (acc : List Nat) :
    parts.foldl (fun acc part =>
        part.foldl (fun a chr => a ++ [(to_ascii_lowercase chr).toNat % 256])
          (acc ++ [strLen part % 256])) acc
      = acc ++ (parts.map fun part => strLen part % 256
          :: part.map fun chr => (to_ascii_lowercase chr).toNat % 256).flatten := by
  induction parts generalizing acc with
  | nil => simp
  | cons p ps ih =>
    rw [List.foldl_cons, foldl_push_chars, ih]
    simp

/-- C10: for every domain-name string and record type, the legacy question
codec of main.rs (`new` pre-encoding the label bytes, then `to_bytes`)
produces exactly the same byte sequence as the modular question codec of
packet.rs (`serialize`, encoding the textual name on serialize). -/
theorem C10_legacy_question_equiv (name : List Char) (qtype : RecordType) :
    (Main.DNSQuestion.new name qtype).to_bytes
      = DNSQuestion.serialize ⟨name, qtype⟩ := by
  simp only [Main.DNSQuestion.new, Main.DNSQuestion.to_bytes,
    DNSQuestion.serialize, serialize_dns_str, foldl_push_parts,
    Main.RecordClass.value, RECORD_CLASS]
  simp


/-! Concrete vectors from the test modules of packet.rs and main.rs, checked
against the embedding. -/

example : serialize_dns_str "test.domain.com".toList =
    [0x04, 0x74, 0x65, 0x73, 0x74, 0x06, 0x64, 0x6f, 0x6d, 0x61, 0x69, 0x6e,
      0x03, 0x63, 0x6f, 0x6d, 0x00] := by
  decide

example : DNSHeader.serialize ⟨0x1314, DNSFlags.default, 1, 2, 3, 4⟩ =
    [0x13, 0x14, 0, 0, 0, 1, 0, 2, 0, 3, 0, 4] := by
  decide

example : DNSQuestion.serialize ⟨"example.com".toList, RecordType.A⟩ =
    [0x07, 0x65, 0x78, 0x61, 0x6d, 0x70, 0x6c, 0x65, 0x03, 0x63, 0x6f, 0x6d,
      0x00, 0x00, 0x01, 0x00, 0x01] := by
  decide

example : DNSPacket.serialize
      ((DNSPacket.new 0xFFFF).add_question ⟨"example.com".toList, RecordType.A⟩) =
    [0xFF, 0xFF, 0, 0, 0, 1, 0, 0, 0, 0, 0, 0,
      0x07, 0x65, 0x78, 0x61, 0x6d, 0x70, 0x6c, 0x65, 0x03, 0x63, 0x6f, 0x6d,
      0x00, 0x00, 0x01, 0x00, 0x01] := by
  decide

example : DNSFlags.serialize { DNSFlags.default with
    is_response := true, is_authoritative := true, recurse_available := true }
    = 0x8480 := by
  decide

example : DNSFlags.fromWord 0x8480 = { DNSFlags.default with
    is_response := true, is_authoritative := true, recurse_available := true } := by
  decide

example : (Main.DNSQuestion.new "example.com".toList RecordType.A).to_bytes =
    [0x07, 0x65, 0x78, 0x61, 0x6d, 0x70, 0x6c, 0x65, 0x03, 0x63, 0x6f, 0x6d,
      0x00, 0x00, 0x01, 0x00, 0x01] := by
  decide

example : splitOnDot "a..b".toList = [['a'], [], ['b']] := by
  decide

end BKDNS
